import Mathlib

/-!
Verification development for the DBQuery proof-of-concept repository
(a Streamlit chat UI that maps natural-language prompts to SQL, executes it
in demo or real mode, syncs schemas to Neo4j, embeds grounding documents and
exports pinned insights to a slide deck).

Python sources are shallowly embedded: pure fragments become Lean functions,
effectful fragments (HTTP calls, Neo4j sessions, Streamlit widgets) become
functions over explicit environment records that record the observable
effects.  Machine integers are `Nat` with explicit `% 2 ^ 32` where the
source relies on 32-bit wraparound (SHA-256), Python floats are `ℚ`.
-/

namespace DBQuery

/-! ## String preliminaries

`containsSub needle hay` models the Python substring test `needle in hay`;
`pyLower` models `str.lower()` (the source only ever matches ASCII keywords,
so ASCII case-mapping via `Char.toLower` is faithful on every relevant
character). -/

def listStartsWith : List Char → List Char → Bool
  | [], _ => true
  | _ :: _, [] => false
  | a :: as, b :: bs => a == b && listStartsWith as bs

def listContains (needle : List Char) : List Char → Bool
  | [] => listStartsWith needle []
  | b :: bs => listStartsWith needle (b :: bs) || listContains needle bs

def containsSub (needle hay : String) : Bool :=
  listContains needle.data hay.data

def pyLower (s : String) : String :=
  ⟨s.data.map Char.toLower⟩

/-- Single-quote character, kept out of string literals. -/
def sq : String := ⟨[Char.ofNat 39]⟩

/-! ## DataFrames

A pandas `DataFrame` is modelled as a column list plus a list of rows; cells
are strings or rationals (Python floats are idealised as exact rationals). -/

inductive Cell where
  | s (v : String)
  | q (v : ℚ)
deriving DecidableEq, Repr

structure DataFrame where
  columns : List String
  rows : List (List Cell)
deriving DecidableEq, Repr

/-- Model of `pandas.DataFrame.head n`: the first `n` rows. -/
def DataFrame.head (n : Nat) (df : DataFrame) : DataFrame :=
  ⟨df.columns, df.rows.take n⟩

/-! ## Demo data (`app.py`, `load_demo_vendors_df` / `load_demo_batches_df`)

Each loader reads a bundled file when present, else returns a constructed
fallback frame.  The file system is an explicit environment: `vendorsFile`
is the parsed content of `demo_data/vendor_performance.json` when that file
exists, and likewise for the batches CSV. -/

def fallbackVendorsDf : DataFrame :=
  ⟨["vendor_id", "vendor_name", "on_time_delivery_rate", "quality_score"],
   [[Cell.s "V001", Cell.s "Alpha", Cell.q (185 / 2), Cell.q (9 / 2)],
    [Cell.s "V002", Cell.s "Beta", Cell.q (883 / 10), Cell.q (21 / 5)],
    [Cell.s "V003", Cell.s "Gamma", Cell.q 95, Cell.q (47 / 10)]]⟩

def fallbackBatchesDf : DataFrame :=
  ⟨["batch_id", "material_name", "vendor_id", "status"],
   [[Cell.s "B2025001", Cell.s "Atorvastatin", Cell.s "V001", Cell.s "Completed"]]⟩

structure DemoData where
  vendorsFile : Option DataFrame
  batchesFile : Option DataFrame

def load_demo_vendors_df (d : DemoData) : DataFrame :=
  d.vendorsFile.getD fallbackVendorsDf

def load_demo_batches_df (d : DemoData) : DataFrame :=
  d.batchesFile.getD fallbackBatchesDf

/-! ## Demo SQL generation (`app.py`, `demo_generate_sql`) -/

def sqlTopVendors : String :=
  "SELECT vendor_id, vendor_name, on_time_delivery_rate FROM demo_vendors ORDER BY on_time_delivery_rate DESC LIMIT 5;"

def rationaleTopVendors : String :=
  "Rank vendors by on-time delivery rate to identify top performers."

def sqlLowestVendors : String :=
  "SELECT vendor_id, vendor_name, on_time_delivery_rate FROM demo_vendors ORDER BY on_time_delivery_rate ASC LIMIT 5;"

def rationaleLowestVendors : String :=
  "Find vendors with the lowest on-time delivery rate to investigate causes."

def sqlTraceBatch : String :=
  "SELECT batch_id, material_name, vendor_id, status FROM demo_batches WHERE batch_id=" ++
    sq ++ "B2025001" ++ sq ++ ";"

def rationaleTraceBatch : String :=
  "Trace lineage of batch B2025001."

def sqlDemoDefault : String :=
  "-- DEMO: refine prompt: try " ++ sq ++ "top vendors" ++ sq ++ " or " ++
    sq ++ "trace batch B2025001" ++ sq

/-- Embedding of `demo_generate_sql`.  The second branch translates the
Python condition `"lowest" in p or "low" in p and "vendor" in p` with
Python's precedence: `or` binds looser than `and`. -/
def demo_generate_sql (prompt : String) : String × String :=
  let p := pyLower prompt
  if containsSub "top" p && containsSub "vendor" p then
    (sqlTopVendors, rationaleTopVendors)
  else if containsSub "lowest" p || (containsSub "low" p && containsSub "vendor" p) then
    (sqlLowestVendors, rationaleLowestVendors)
  else if containsSub "trace" p && containsSub "batch" p then
    (sqlTraceBatch, rationaleTraceBatch)
  else
    (sqlDemoDefault, "No strong mapping.")

/-- The keyword-substring observations of a prompt: the only data
`demo_generate_sql` ever inspects. -/
def keyChecks (prompt : String) : Bool × Bool × Bool × Bool × Bool × Bool :=
  let p := pyLower prompt
  (containsSub "top" p, containsSub "vendor" p, containsSub "lowest" p,
   containsSub "low" p, containsSub "trace" p, containsSub "batch" p)

/-! ## SQL execution (`app.py`, `execute_sql`)

`demo_mode` routes to canned data; real mode builds a `DatabricksConnector`
and calls `execute_query`, with the `except` clause mapping any exception to
a one-column error frame and a Streamlit error banner.  The connector object
is an environment function `String → Except String DataFrame` (the class is
imported by `app.py`; a failed import leaves it `None`).  Observable effects
are recorded in a trace. -/

inductive Effect where
  | externalCall (sql : String)
  | uiError (msg : String)
deriving DecidableEq, Repr

structure AppEnv where
  demo_mode : Bool
  demoData : DemoData
  connector : Option (String → Except String DataFrame)

def demoNoMatchDf : DataFrame :=
  ⟨["message"], [[Cell.s "Demo: no matching data for SQL"]]⟩

def connectorMissingMsg : String := "Databricks connector not available."

def errorDf (e : String) : DataFrame := ⟨["error"], [[Cell.s e]]⟩

def execute_sql (env : AppEnv) (sql_text : String) : DataFrame × List Effect :=
  if env.demo_mode then
    if containsSub "demo_vendors" sql_text || containsSub "vendor" sql_text then
      (load_demo_vendors_df env.demoData, [])
    else if containsSub "demo_batches" sql_text || containsSub "batch" sql_text then
      (load_demo_batches_df env.demoData, [])
    else
      (demoNoMatchDf, [])
  else
    match env.connector with
    | none =>
        (errorDf connectorMissingMsg,
         [Effect.uiError ("Real execution failed: " ++ connectorMissingMsg)])
    | some exec =>
        match exec sql_text with
        | Except.ok df => (df, [Effect.externalCall sql_text])
        | Except.error e =>
            (errorDf e,
             [Effect.externalCall sql_text, Effect.uiError ("Real execution failed: " ++ e)])

/-! ## Connection test (`modules/databricks_connector.py`, `test_sql_connection`)

`has_dbsql` is the module flag `HAS_DBSQL` (did `from databricks import sql`
succeed); the `connect` environment function models the connection attempt
plus `SELECT 1` fetch, `Except.error` being a raised exception. -/

inductive ConnReply where
  | msg (v : String)
  | row (r : List Cell)
deriving DecidableEq, Repr

def test_sql_connection (has_dbsql : Bool)
    (server_hostname http_path access_token : String) (timeout : Nat)
    (connect : String → String → String → Except String (List Cell)) :
    Bool × ConnReply :=
  if !has_dbsql then
    (false, ConnReply.msg "databricks-sql-connector not installed")
  else
    match connect server_hostname http_path access_token with
    | Except.ok row => (true, ConnReply.row row)
    | Except.error e => (false, ConnReply.msg e)

/-! ## SHA-256 (the `hashlib.sha256` call in `modules/vector_engine.py`)

FIPS 180-4 SHA-256 over byte lists, with 32-bit words as `Nat` reduced by
`% 2 ^ 32`.  This embeds the library function the fallback pseudo-embedding
`_local_embed_texts` relies on. -/

def w32 (n : Nat) : Nat := n % 4294967296

/-- Right rotation of a 32-bit word (valid for `x < 2 ^ 32`). -/
def rotr (k x : Nat) : Nat := x / 2 ^ k + x % 2 ^ k * 2 ^ (32 - k)

def bigSigma0 (x : Nat) : Nat := rotr 2 x ^^^ rotr 13 x ^^^ rotr 22 x

def bigSigma1 (x : Nat) : Nat := rotr 6 x ^^^ rotr 11 x ^^^ rotr 25 x

def smallSigma0 (x : Nat) : Nat := rotr 7 x ^^^ rotr 18 x ^^^ x / 2 ^ 3

def smallSigma1 (x : Nat) : Nat := rotr 17 x ^^^ rotr 19 x ^^^ x / 2 ^ 10

def chFn (x y z : Nat) : Nat := (x &&& y) ^^^ ((x ^^^ 4294967295) &&& z)

def majFn (x y z : Nat) : Nat := (x &&& y) ^^^ (x &&& z) ^^^ (y &&& z)

/-- The 64 round constants of FIPS 180-4, in decimal. -/
def shaK : List Nat :=
  [1116352408, 1899447441, 3049323471, 3921009573,
   961987163, 1508970993, 2453635748, 2870763221,
   3624381080, 310598401, 607225278, 1426881987,
   1925078388, 2162078206, 2614888103, 3248222580,
   3835390401, 4022224774, 264347078, 604807628,
   770255983, 1249150122, 1555081692, 1996064986,
   2554220882, 2821834349, 2952996808, 3210313671,
   3336571891, 3584528711, 113926993, 338241895,
   666307205, 773529912, 1294757372, 1396182291,
   1695183700, 1986661051, 2177026350, 2456956037,
   2730485921, 2820302411, 3259730800, 3345764771,
   3516065817, 3600352804, 4094571909, 275423344,
   430227734, 506948616, 659060556, 883997877,
   958139571, 1322822218, 1537002063, 1747873779,
   1955562222, 2024104815, 2227730452, 2361852424,
   2428436474, 2756734187, 3204031479, 3329325298]

structure Regs where
  a : Nat
  b : Nat
  c : Nat
  d : Nat
  e : Nat
  f : Nat
  g : Nat
  h : Nat
deriving DecidableEq, Repr

/-- The initial hash value of FIPS 180-4, in decimal. -/
def shaH0 : Regs :=
  ⟨1779033703, 3144134277, 1013904242, 2773480762,
   1359893119, 2600822924, 528734635, 1541459225⟩

/-- Big-endian 4-byte groups to 32-bit words. -/
def toWordsBE : List Nat → List Nat
  | a :: b :: c :: d :: rest => (((a * 256 + b) * 256 + c) * 256 + d) :: toWordsBE rest
  | _ => []

/-- Extend 16 message-schedule words to 64. -/
def extendW (w : List Nat) : List Nat :=
  (List.range 48).foldl
    (fun acc _ =>
      let n := acc.length
      acc ++ [w32 (acc.getD (n - 16) 0 + smallSigma0 (acc.getD (n - 15) 0) +
                   acc.getD (n - 7) 0 + smallSigma1 (acc.getD (n - 2) 0))])
    w

def roundStep (r : Regs) (kw : Nat × Nat) : Regs :=
  let t1 := w32 (r.h + bigSigma1 r.e + chFn r.e r.f r.g + kw.1 + kw.2)
  let t2 := w32 (bigSigma0 r.a + majFn r.a r.b r.c)
  ⟨w32 (t1 + t2), r.a, r.b, r.c, w32 (r.d + t1), r.e, r.f, r.g⟩

def compressChunk (r : Regs) (chunk : List Nat) : Regs :=
  let ws := extendW (toWordsBE chunk)
  let s := (shaK.zip ws).foldl roundStep r
  ⟨w32 (r.a + s.a), w32 (r.b + s.b), w32 (r.c + s.c), w32 (r.d + s.d),
   w32 (r.e + s.e), w32 (r.f + s.f), w32 (r.g + s.g), w32 (r.h + s.h)⟩

/-- Split into 64-byte chunks; the fuel (list length) makes the recursion
structural so that the kernel can evaluate it. -/
def chunks64Aux : Nat → List Nat → List (List Nat)
  | 0, _ => []
  | _, [] => []
  | fuel + 1, b :: rest => (b :: rest.take 63) :: chunks64Aux fuel (rest.drop 63)

def chunks64 (l : List Nat) : List (List Nat) := chunks64Aux l.length l

def lenBytesBE (n : Nat) : List Nat :=
  [n / 2 ^ 56 % 256, n / 2 ^ 48 % 256, n / 2 ^ 40 % 256, n / 2 ^ 32 % 256,
   n / 2 ^ 24 % 256, n / 2 ^ 16 % 256, n / 2 ^ 8 % 256, n % 256]

/-- Append `0x80`, zero padding to 56 mod 64, and the 64-bit bit length. -/
def sha256pad (msg : List Nat) : List Nat :=
  msg ++ 128 :: (List.replicate ((119 - msg.length % 64) % 64) 0 ++ lenBytesBE (8 * msg.length))

def word32Bytes (w : Nat) : List Nat :=
  [w / 2 ^ 24 % 256, w / 2 ^ 16 % 256, w / 2 ^ 8 % 256, w % 256]

def sha256 (msg : List Nat) : List Nat :=
  let r := (chunks64 (sha256pad msg)).foldl compressChunk shaH0
  word32Bytes r.a ++ word32Bytes r.b ++ word32Bytes r.c ++ word32Bytes r.d ++
    word32Bytes r.e ++ word32Bytes r.f ++ word32Bytes r.g ++ word32Bytes r.h

/-! ## Local pseudo-embedding (`modules/vector_engine.py`, `_local_embed_texts`) -/

/-- UTF-8 encoding of one character (Python `str.encode()`). -/
def utf8EncodeChar (c : Char) : List Nat :=
  let n := c.toNat
  if n < 128 then [n]
  else if n < 2048 then [192 + n / 64, 128 + n % 64]
  else if n < 65536 then [224 + n / 4096, 128 + n / 64 % 64, 128 + n % 64]
  else [240 + n / 262144, 128 + n / 4096 % 64, 128 + n / 64 % 64, 128 + n % 64]

def encodeUtf8 (s : String) : List Nat :=
  (s.data.map utf8EncodeChar).flatten

/-- Loop body of `_local_embed_texts`: `h = sha256(t.encode()).digest();
vec = [b / 255.0 for b in h[:128]]`. -/
def embedOne (t : String) : List ℚ :=
  ((sha256 (encodeUtf8 t)).take 128).map (fun (b : Nat) => (b : ℚ) / 255)

def localEmbedTexts (texts : List String) : List (List ℚ) :=
  texts.map embedOne

/-- Ambient state a run could in principle observe (wall clock, RNG seed);
`_local_embed_texts` reads none of it, which is what Claim C8 asserts. -/
structure World where
  clock : Nat
  randomSeed : Nat

def embedTextsRun (_w : World) (texts : List String) : List (List ℚ) :=
  localEmbedTexts texts

lemma word32Bytes_mem_lt (w : Nat) : ∀ b ∈ word32Bytes w, b < 256 := by
  intro b hb
  simp only [word32Bytes, List.mem_cons, List.not_mem_nil, or_false] at hb
  rcases hb with rfl | rfl | rfl | rfl <;> exact Nat.mod_lt _ (by norm_num)

lemma sha256_length (msg : List Nat) : (sha256 msg).length = 32 := by
  simp [sha256, word32Bytes]

lemma sha256_mem_lt (msg : List Nat) : ∀ b ∈ sha256 msg, b < 256 := by
  intro b hb
  simp only [sha256, List.mem_append] at hb
  rcases hb with ((((((h | h) | h) | h) | h) | h) | h) | h <;>
    exact word32Bytes_mem_lt _ _ h

/-! ## Jobs-API path (`modules/databricks_connector.py`, `run_sql_via_jobs_api`)

Each REST call is a field of a `JobsEnv` environment: `Except.error`
models a raised exception (`raise_for_status`, connection errors, parse
failures).  Time is idealised: requests take no time and each loop pass
sleeps `poll_interval` seconds, so elapsed time before the n-th status check
is `n * poll_interval`.  The `n`-th poll response is `statusAt n`; the
follow-up fetch after the loop is `finalResp` (its own fresh request in the
source, and the only request outside a `try` block). -/

/-- The `state` object of a run: `life_cycle_state` and `result_state`
(either may be absent; Python truthiness makes `""` falsy). -/
structure RunStatus where
  life : Option String
  result : Option String
deriving DecidableEq, Repr

def truthyStr : Option String → Bool
  | none => false
  | some s => !(s == "")

/-- Loop-exit condition: `life in ('TERMINATED', 'SKIPPED', 'INTERNAL_ERROR')
or result_state`. -/
def isTerminalStatus (st : RunStatus) : Bool :=
  (match st.life with
   | some l => l == "TERMINATED" || l == "SKIPPED" || l == "INTERNAL_ERROR"
   | none => false) || truthyStr st.result

inductive PollExit where
  | timedOut
  | pollError (e : String)
  | terminal (n : Nat) (st : RunStatus)
deriving DecidableEq, Repr

/-- One pass of the `while True` poll loop, entered with `n` sleeps elapsed;
`none` means the fuel ran out, i.e. the loop is still running after that
many model steps. -/
def pollAux (statusAt : Nat → Except String RunStatus) (interval timeout : Nat) :
    Nat → Nat → Option PollExit
  | 0, _ => none
  | fuel + 1, n =>
    if timeout < n * interval then some PollExit.timedOut
    else
      match statusAt n with
      | Except.error e => some (PollExit.pollError e)
      | Except.ok st =>
        if isTerminalStatus st then some (PollExit.terminal n st)
        else pollAux statusAt interval timeout fuel (n + 1)

def pollLoop (statusAt : Nat → Except String RunStatus) (interval timeout : Nat) :
    Option PollExit :=
  pollAux statusAt interval timeout (timeout + 2) 0

def default_poll_interval : Nat := 3

def default_timeout : Nat := 300

/-- Second component of the Python `(False, ...)` returns: a string, the raw
`state` dict, or the not-found dict with the `/tmp` listing. -/
inductive ErrInfo where
  | msg (s : String)
  | state (st : RunStatus)
  | notFound (files : List String)
deriving DecidableEq, Repr

inductive JobsResult where
  | success (df : DataFrame)
  | failure (e : ErrInfo)
  | exn (e : String)
deriving DecidableEq, Repr

structure JobsEnv where
  putResp : Except String Unit
  submitResp : Except String (Option Nat)
  statusAt : Nat → Except String RunStatus
  finalResp : Except String RunStatus
  listResp : Except String (List String)
  innerListAt : String → Except String (List String)
  readResp : String → Except String String
  parseCsv : String → Except String DataFrame

/-- The candidate search over the `/tmp` listing: for each folder whose path
starts with `/tmp/streamlit_poc_`, list it and take the first entry whose
path contains `part-` and ends with `.csv`; stop at the first hit, otherwise
keep scanning folders. -/
def findCandidate (innerListAt : String → Except String (List String)) :
    List String → Except String (Option String)
  | [] => Except.ok none
  | p :: rest =>
    if p.startsWith "/tmp/streamlit_poc_" then
      match innerListAt p with
      | Except.error e => Except.error e
      | Except.ok inner =>
        match inner.find? (fun q => containsSub "part-" q && q.endsWith ".csv") with
        | some q => Except.ok (some q)
        | none => findCandidate innerListAt rest
    else findCandidate innerListAt rest

/-- Embedding of `run_sql_via_jobs_api`.  Every REST step except the
post-loop status re-fetch is wrapped in `try`/`except` in the source and so
maps its error case to `JobsResult.failure`; the re-fetch
(`final = session.get(...)`, `final.raise_for_status()`) is not, so its
error case escapes as `JobsResult.exn`. -/
def run_sql_via_jobs_api (env : JobsEnv) (poll_interval timeout : Nat) : JobsResult :=
  match env.putResp with
  | Except.error e => JobsResult.failure (ErrInfo.msg ("Failed to upload task to DBFS: " ++ e))
  | Except.ok _ =>
  match env.submitResp with
  | Except.error e => JobsResult.failure (ErrInfo.msg ("Failed to submit run: " ++ e))
  | Except.ok none => JobsResult.failure (ErrInfo.msg "No run_id returned")
  | Except.ok (some run_id) =>
  if run_id == 0 then JobsResult.failure (ErrInfo.msg "No run_id returned")
  else
  match pollLoop env.statusAt poll_interval timeout with
  | none => JobsResult.exn "model: poll loop still running"
  | some PollExit.timedOut => JobsResult.failure (ErrInfo.msg "Timed out waiting for job completion")
  | some (PollExit.pollError e) =>
      JobsResult.failure (ErrInfo.msg ("Error polling run status: " ++ e))
  | some (PollExit.terminal _ _) =>
  match env.finalResp with
  | Except.error e => JobsResult.exn e
  | Except.ok fj =>
  if !(fj.result == some "SUCCESS") then JobsResult.failure (ErrInfo.state fj)
  else
  match env.listResp with
  | Except.error e => JobsResult.failure (ErrInfo.msg ("Failed to fetch result CSV: " ++ e))
  | Except.ok files =>
  match findCandidate env.innerListAt files with
  | Except.error e => JobsResult.failure (ErrInfo.msg ("Failed to fetch result CSV: " ++ e))
  | Except.ok none => JobsResult.failure (ErrInfo.notFound files)
  | Except.ok (some path) =>
  match env.readResp path with
  | Except.error e => JobsResult.failure (ErrInfo.msg ("Failed to fetch result CSV: " ++ e))
  | Except.ok content =>
  match env.parseCsv content with
  | Except.error e => JobsResult.failure (ErrInfo.msg ("Failed to fetch result CSV: " ++ e))
  | Except.ok df => JobsResult.success df

/-- What a poll-loop exit is allowed to look like, given the responses. -/
def validPollExit (statusAt : Nat → Except String RunStatus)
    (interval timeout : Nat) : PollExit → Prop
  | PollExit.timedOut => ∃ m, timeout < m * interval
  | PollExit.pollError e => ∃ m, m * interval ≤ timeout ∧ statusAt m = Except.error e
  | PollExit.terminal m st =>
      m * interval ≤ timeout ∧ statusAt m = Except.ok st ∧ isTerminalStatus st = true

lemma pollAux_terminates (statusAt : Nat → Except String RunStatus)
    (interval timeout : Nat) (hint : 1 ≤ interval) :
    ∀ fuel n, n * interval ≤ timeout → timeout + 2 ≤ n + fuel →
      ∃ r, pollAux statusAt interval timeout fuel n = some r ∧
        validPollExit statusAt interval timeout r := by
  intro fuel
  induction fuel with
  | zero =>
    intro n hn hsum
    exfalso
    have h1 : n * 1 ≤ n * interval := Nat.mul_le_mul_left n hint
    rw [Nat.mul_one] at h1
    have hn' : n ≤ timeout := le_trans h1 hn
    omega
  | succ fuel ih =>
    intro n hn hsum
    have h1 : n * 1 ≤ n * interval := Nat.mul_le_mul_left n hint
    rw [Nat.mul_one] at h1
    have hn' : n ≤ timeout := le_trans h1 hn
    simp only [pollAux]
    rw [if_neg (Nat.not_lt.mpr hn)]
    cases hst : statusAt n with
    | error e =>
      exact ⟨PollExit.pollError e, rfl, n, hn, hst⟩
    | ok st =>
      by_cases hterm : isTerminalStatus st = true
      · exact ⟨PollExit.terminal n st, by simp [hterm], hn, hst, hterm⟩
      · by_cases hnext : (n + 1) * interval ≤ timeout
        · obtain ⟨r, hr, hv⟩ := ih (n + 1) hnext (by omega)
          refine ⟨r, ?_, hv⟩
          simpa [hterm] using hr
        · have hcond : timeout < (n + 1) * interval := Nat.not_le.mp hnext
          cases fuel with
          | zero => omega
          | succ f =>
            have hr : pollAux statusAt interval timeout (f + 1) (n + 1) =
                some PollExit.timedOut := by
              simp only [pollAux]
              rw [if_pos hcond]
            refine ⟨PollExit.timedOut, ?_, n + 1, hcond⟩
            simpa [hterm] using hr

/-! ## Neo4j schema sync (`modules/neo4j_sync.py`, `sync_schema_to_neo4j`)

Each `session.run(...)` is recorded as one `Cypher` statement; the source
never reads a query result, so the emitted statement trace is a function of
the schema object alone — the database's current contents cannot influence
it.  The schema dict is a list of (qualified-name, columns) pairs in
iteration order. -/

inductive Cypher where
  | mergeCatalog (name : String)
  | mergeSchema (name : String)
  | mergeTable (name : String)
  | relHasSchema (catalog schemaName : String)
  | relHasTable (schemaName table : String)
  | mergeColumn (name : String)
  | relHasColumn (table col : String)
deriving DecidableEq, Repr

/-- Splitting a character list at a separator, Python `str.split` style:
the empty string gives one empty group, adjacent separators give empty
groups. -/
def splitChars (sep : Char) : List Char → List (List Char)
  | [] => [[]]
  | c :: rest =>
    let r := splitChars sep rest
    if c == sep then [] :: r
    else
      match r with
      | [] => [[c]]
      | g :: gs => (c :: g) :: gs

/-- Python `qualified.split(".")`. -/
def pySplitDot (s : String) : List String :=
  (splitChars (Char.ofNat 46) s.data).map (fun l => ⟨l⟩)

/-- The 3-part / 2-part / fallback destructuring of a qualified name. -/
def splitQualified (q : String) : String × String × String :=
  match pySplitDot q with
  | [c, s, t] => (c, s, t)
  | [s, t] => ("default", s, t)
  | _ => ("default", "default", q)

def sync_schema_to_neo4j (neo4jAvailable : Bool) (uri user pwd : String)
    (schema_obj : List (String × List String)) : Except String (List Cypher) :=
  if !neo4jAvailable then Except.error "neo4j python driver not installed"
  else if uri == "" || user == "" then
    Except.error "Missing Neo4j configuration (neo4j_uri, neo4j_user, neo4j_pass)"
  else
    Except.ok (schema_obj.foldl
      (fun acc entry =>
        let cst := splitQualified entry.1
        let acc1 := acc ++ [Cypher.mergeCatalog cst.1] ++ [Cypher.mergeSchema cst.2.1] ++
          [Cypher.mergeTable cst.2.2] ++ [Cypher.relHasSchema cst.1 cst.2.1] ++
          [Cypher.relHasTable cst.2.1 cst.2.2]
        entry.2.foldl
          (fun acc2 col => acc2 ++ [Cypher.mergeColumn col] ++ [Cypher.relHasColumn cst.2.2 col])
          acc1)
      [])

/-- The per-table statement block as Claim C6 describes it: three node
MERGEs, two relationship MATCH-MERGEs, then two statements per column. -/
def claimedTableStmts (entry : String × List String) : List Cypher :=
  let cst := splitQualified entry.1
  [Cypher.mergeCatalog cst.1, Cypher.mergeSchema cst.2.1, Cypher.mergeTable cst.2.2,
   Cypher.relHasSchema cst.1 cst.2.1, Cypher.relHasTable cst.2.1 cst.2.2] ++
    entry.2.flatMap (fun col => [Cypher.mergeColumn col, Cypher.relHasColumn cst.2.2 col])

lemma colFoldl_eq (t : String) (cols : List String) (acc : List Cypher) :
    cols.foldl
        (fun acc2 col => acc2 ++ [Cypher.mergeColumn col] ++ [Cypher.relHasColumn t col]) acc =
      acc ++ cols.flatMap (fun col => [Cypher.mergeColumn col, Cypher.relHasColumn t col]) := by
  induction cols generalizing acc with
  | nil => simp
  | cons c cs ih =>
    rw [List.foldl_cons, ih]
    simp

lemma syncFoldl_eq (schema_obj : List (String × List String)) (acc : List Cypher) :
    schema_obj.foldl
        (fun acc entry =>
          let cst := splitQualified entry.1
          let acc1 := acc ++ [Cypher.mergeCatalog cst.1] ++ [Cypher.mergeSchema cst.2.1] ++
            [Cypher.mergeTable cst.2.2] ++ [Cypher.relHasSchema cst.1 cst.2.1] ++
            [Cypher.relHasTable cst.2.1 cst.2.2]
          entry.2.foldl
            (fun acc2 col => acc2 ++ [Cypher.mergeColumn col] ++ [Cypher.relHasColumn cst.2.2 col])
            acc1)
        acc =
      acc ++ schema_obj.flatMap claimedTableStmts := by
  induction schema_obj generalizing acc with
  | nil => simp
  | cons e es ih =>
    rw [List.foldl_cons]
    show (es.foldl _ (e.2.foldl _ _)) = _
    rw [colFoldl_eq, ih]
    simp [claimedTableStmts]

lemma claimedTableStmts_length (entry : String × List String) :
    (claimedTableStmts entry).length = 5 + 2 * entry.2.length := by
  have h : ∀ cols : List String, ∀ t : String,
      (cols.flatMap (fun col => [Cypher.mergeColumn col, Cypher.relHasColumn t col])).length =
        2 * cols.length := by
    intro cols t
    induction cols with
    | nil => simp
    | cons c cs ih =>
      simp [ih]
      omega
  simp [claimedTableStmts, h]
  omega

/-! ## Pinned-insight export (`app.py`, `render_canvas` export panel)

`BoardExporter` is imported from `modules.export_ppt`, whose available
source exposes only `create_pptx_from_insights`; the class itself is in a
sibling version of the module not present here, so it is modelled from the
spec (see `BoardExporter` below).  The truncation `p["df"].head(10)` and
the title default `p.get("title", "Insight")` are in `app.py` itself. -/

structure Pinned where
  title : Option String
  df : DataFrame
deriving DecidableEq, Repr

def getTitleD (p : Pinned) : String := p.title.getD "Insight"

inductive Slide where
  | titleSlide (text : String)
  | tableSlide (title : String) (df : DataFrame)
deriving DecidableEq, Repr

/-- Modelled from the spec: the `BoardExporter` class is imported from
`modules.export_ppt` but not defined in the sources available here; the
spec says the app "exports pinned insights to a slide deck".  It is
modelled as a slide-deck builder whose methods append slides. -/
structure BoardExporter where
  demo_mode : Bool
  slides : List Slide

/-- Modelled from the spec: appends a title slide. -/
def BoardExporter.add_title_slide (e : BoardExporter) (text : String) : BoardExporter :=
  ⟨e.demo_mode, e.slides ++ [Slide.titleSlide text]⟩

/-- Modelled from the spec: appends a table slide for one pinned insight. -/
def BoardExporter.add_table_slide (e : BoardExporter) (title : String) (df : DataFrame) :
    BoardExporter :=
  ⟨e.demo_mode, e.slides ++ [Slide.tableSlide title df]⟩

/-- Modelled from the spec: saves the deck under the given file name and
returns the path handed to the download button. -/
def BoardExporter.save_ppt (e : BoardExporter) (name : String) : BoardExporter × String :=
  (e, name)

structure ExportOutcome where
  deck : Option (List Slide)
  savedTo : Option String
  offered : Option String
  errMsg : Option String
deriving DecidableEq, Repr

/-- The export panel of `render_canvas` (app.py lines 259-270): shown only
for a non-empty pinned list; errors when the exporter module is missing;
otherwise builds a title slide, one table slide per pinned insight with the
frame truncated by `head(10)`, saves, and offers the file for download. -/
def export_pinned_to_ppt (exporterAvailable demo : Bool) (pinned : List Pinned) :
    ExportOutcome :=
  if pinned.isEmpty then ⟨none, none, none, none⟩
  else if !exporterAvailable then ⟨none, none, none, some "Export module not available."⟩
  else
    let e0 : BoardExporter := ⟨demo, []⟩
    let e1 := e0.add_title_slide "DataWeave AI - Pinned Insights"
    let e2 := pinned.foldl (fun e p => e.add_table_slide (getTitleD p) (p.df.head 10)) e1
    let saved := e2.save_ppt "dataweave_pinned.pptx"
    ⟨some saved.1.slides, some saved.2, some saved.2, none⟩

lemma foldl_add_table_slides (pinned : List Pinned) (e : BoardExporter) :
    (pinned.foldl (fun e p => e.add_table_slide (getTitleD p) (p.df.head 10)) e).slides =
      e.slides ++ pinned.map (fun p => Slide.tableSlide (getTitleD p) (p.df.head 10)) := by
  induction pinned generalizing e with
  | nil => simp
  | cons p ps ih =>
    rw [List.foldl_cons, ih]
    simp [BoardExporter.add_table_slide]

end DBQuery

namespace DBQuery

/-! ## Claims about `demo_generate_sql` and `execute_sql` -/

/-- Claim C2: whenever the lower-cased prompt contains both "top" and
"vendor", `demo_generate_sql` returns exactly the fixed top-vendors query
string and its fixed rationale; moreover the prompt-to-query mapping is
decided solely by the keyword-substring checks: any two prompts with equal
keyword observations get equal results. -/
theorem c2_top_vendor_fixed_query :
    (∀ prompt : String,
      containsSub "top" (pyLower prompt) = true →
      containsSub "vendor" (pyLower prompt) = true →
      demo_generate_sql prompt = (sqlTopVendors, rationaleTopVendors)) ∧
    (∀ p₁ p₂ : String, keyChecks p₁ = keyChecks p₂ →
      demo_generate_sql p₁ = demo_generate_sql p₂) := by
  constructor
  · intro prompt htop hven
    simp [demo_generate_sql, htop, hven]
  · intro p₁ p₂ h
    simp only [keyChecks, Prod.mk.injEq] at h
    obtain ⟨h1, h2, h3, h4, h5, h6⟩ := h
    simp only [demo_generate_sql, h1, h2, h3, h4, h5, h6]

/-- Witness for C2 at the concrete prompt "Show top 5 vendors in US by
on-time delivery rate" (demo script step 1). -/
theorem c2_top_vendor_fixed_query_witness :
    demo_generate_sql "Show top 5 vendors in US by on-time delivery rate" =
      (sqlTopVendors, rationaleTopVendors) ∧
    demo_generate_sql "TOP VENDORS" = demo_generate_sql "top vendors" := by
  constructor
  · exact c2_top_vendor_fixed_query.1
      "Show top 5 vendors in US by on-time delivery rate" (by decide) (by decide)
  · exact c2_top_vendor_fixed_query.2 "TOP VENDORS" "top vendors" (by decide)

/-- Claim C10: a prompt whose lower-cased form contains "lowest" but not
both "top" and "vendor" hits the lowest-vendors branch even with no
vendor-related keyword, because in `"lowest" in p or "low" in p and
"vendor" in p` the `or` binds looser than the `and`. -/
theorem c10_lowest_alone_triggers_branch (prompt : String)
    (hlow : containsSub "lowest" (pyLower prompt) = true)
    (hnot : (containsSub "top" (pyLower prompt) &&
             containsSub "vendor" (pyLower prompt)) = false) :
    demo_generate_sql prompt = (sqlLowestVendors, rationaleLowestVendors) := by
  simp only [demo_generate_sql, hnot, Bool.false_eq_true, if_false, hlow,
    Bool.true_or, if_pos]

/-- Witness for C10: "lowest price" mentions no vendor at all yet yields the
lowest-vendors query. -/
theorem c10_lowest_alone_triggers_branch_witness :
    demo_generate_sql "lowest price" = (sqlLowestVendors, rationaleLowestVendors) :=
  c10_lowest_alone_triggers_branch "lowest price" (by decide) (by decide)

/-- Claim C3: with demo mode on, `execute_sql` performs no external call (an
empty effect trace) and routes purely on substrings of the SQL text: the
demo vendors frame when it contains "demo_vendors" or "vendor", else the
demo batches frame when it contains "demo_batches" or "batch", else the
one-column "Demo: no matching data for SQL" frame. -/
theorem c3_demo_execute_sql_canned (env : AppEnv) (sql_text : String)
    (hdemo : env.demo_mode = true) :
    (execute_sql env sql_text).2 = [] ∧
    ((containsSub "demo_vendors" sql_text || containsSub "vendor" sql_text) = true →
      (execute_sql env sql_text).1 = load_demo_vendors_df env.demoData) ∧
    ((containsSub "demo_vendors" sql_text || containsSub "vendor" sql_text) = false →
      (containsSub "demo_batches" sql_text || containsSub "batch" sql_text) = true →
      (execute_sql env sql_text).1 = load_demo_batches_df env.demoData) ∧
    ((containsSub "demo_vendors" sql_text || containsSub "vendor" sql_text) = false →
      (containsSub "demo_batches" sql_text || containsSub "batch" sql_text) = false →
      (execute_sql env sql_text).1 = demoNoMatchDf) := by
  refine ⟨?_, ?_, ?_, ?_⟩
  · simp only [execute_sql, hdemo, if_true]
    split <;> try rfl
    split <;> rfl
  · intro hv
    simp only [execute_sql, hdemo, if_true, hv, if_pos]
  · intro hv hb
    simp only [execute_sql, hdemo, if_true, hv, Bool.false_eq_true, if_false, hb, if_pos]
  · intro hv hb
    simp only [execute_sql, hdemo, if_true, hv, hb, Bool.false_eq_true, if_false]

/-- Witness for C3: a concrete demo-mode environment exercising the
fallback branch on "SELECT 1" (no keyword matches). -/
theorem c3_demo_execute_sql_canned_witness :
    (execute_sql ⟨true, ⟨none, none⟩, none⟩ "SELECT 1").2 = [] ∧
    (execute_sql ⟨true, ⟨none, none⟩, none⟩ "SELECT 1").1 = demoNoMatchDf ∧
    (execute_sql ⟨true, ⟨none, none⟩, none⟩ "SELECT * FROM demo_vendors").1 =
      fallbackVendorsDf := by
  have h := c3_demo_execute_sql_canned ⟨true, ⟨none, none⟩, none⟩ "SELECT 1" rfl
  have h2 := c3_demo_execute_sql_canned ⟨true, ⟨none, none⟩, none⟩
    "SELECT * FROM demo_vendors" rfl
  exact ⟨h.1, h.2.2.2 (by decide) (by decide), h2.2.1 (by decide)⟩

/-- Validation of the SHA-256 embedding against the FIPS 180-4 test vector
for the empty message. -/
lemma sha256_empty_test_vector : sha256 [] =
    [227,176,196,66,152,252,28,20,154,251,244,200,153,111,185,36,
     39,174,65,228,100,155,147,76,164,149,153,27,120,82,184,85] := by decide

/-- Validation of the UTF-8 encoder on ASCII input. -/
lemma encodeUtf8_abc : encodeUtf8 "abc" = [97, 98, 99] := by decide

/-- Validation of the SHA-256 embedding against the FIPS 180-4 test vector
for the message "abc". -/
lemma sha256_abc_test_vector : sha256 (encodeUtf8 "abc") =
    [186,120,22,191,143,1,207,234,65,65,64,222,93,174,34,35,
     176,3,97,163,150,23,122,156,180,16,255,97,242,0,21,173] := by decide

/-- Claim C8: the fallback pseudo-embedding is deterministic.  Two runs in
arbitrary ambient worlds on the same text list return identical vectors, and
each vector is a pure function of the text's bytes: texts with equal UTF-8
encodings embed identically. -/
theorem c8_local_embed_deterministic :
    (∀ (w₁ w₂ : World) (ts : List String),
      embedTextsRun w₁ ts = embedTextsRun w₂ ts) ∧
    (∀ t₁ t₂ : String, encodeUtf8 t₁ = encodeUtf8 t₂ → embedOne t₁ = embedOne t₂) := by
  refine ⟨fun _ _ _ => rfl, fun t₁ t₂ h => ?_⟩
  unfold embedOne
  rw [h]

/-- Witness for C8 at two distinct worlds and the text "abc". -/
theorem c8_local_embed_deterministic_witness :
    embedTextsRun ⟨0, 0⟩ ["abc"] = embedTextsRun ⟨999, 7⟩ ["abc"] ∧
    embedOne "abc" = embedOne "abc" :=
  ⟨c8_local_embed_deterministic.1 ⟨0, 0⟩ ⟨999, 7⟩ ["abc"],
   c8_local_embed_deterministic.2 "abc" "abc" rfl⟩

/-- Claim C9: for every text the fallback vector has exactly 32 components
(the slice `h[:128]` of the 32-byte digest is the whole digest), each one a
digest byte divided by 255 and hence in the closed interval `[0, 1]`. -/
theorem c9_embed_vector_shape (t : String) :
    embedOne t = (sha256 (encodeUtf8 t)).map (fun (b : Nat) => (b : ℚ) / 255) ∧
    (embedOne t).length = 32 ∧
    ∀ x ∈ embedOne t, 0 ≤ x ∧ x ≤ 1 := by
  have htake : (sha256 (encodeUtf8 t)).take 128 = sha256 (encodeUtf8 t) :=
    List.take_of_length_le (by rw [sha256_length]; norm_num)
  have h1 : embedOne t = (sha256 (encodeUtf8 t)).map (fun (b : Nat) => (b : ℚ) / 255) := by
    unfold embedOne
    rw [htake]
  refine ⟨h1, ?_, ?_⟩
  · rw [h1, List.length_map, sha256_length]
  · intro x hx
    rw [h1] at hx
    simp only [List.mem_map] at hx
    obtain ⟨b, hb, rfl⟩ := hx
    have hlt : b < 256 := sha256_mem_lt _ b hb
    constructor
    · positivity
    · rw [div_le_one (by norm_num : (0 : ℚ) < 255)]
      exact_mod_cast Nat.lt_succ_iff.mp hlt

/-- Claim C5: for any positive poll interval the status-polling loop always
exits: it either observes a response whose life-cycle state or result state
is terminal (at elapsed time still within the timeout), stops on a polling
exception, or times out once elapsed time exceeds the timeout — in which
case `run_sql_via_jobs_api` returns the fixed timeout failure message.
Elapsed time advances by exactly `interval` per pass (no backoff). -/
theorem c5_poll_loop_terminates (statusAt : Nat → Except String RunStatus)
    (interval timeout : Nat) (hint : 1 ≤ interval) :
    (∃ r, pollLoop statusAt interval timeout = some r ∧
      validPollExit statusAt interval timeout r) ∧
    (∀ env : JobsEnv, env.statusAt = statusAt →
      env.putResp = Except.ok () →
      (∃ rid, env.submitResp = Except.ok (some rid) ∧ rid ≠ 0) →
      pollLoop statusAt interval timeout = some PollExit.timedOut →
      run_sql_via_jobs_api env interval timeout =
        JobsResult.failure (ErrInfo.msg "Timed out waiting for job completion")) := by
  constructor
  · exact pollAux_terminates statusAt interval timeout hint (timeout + 2) 0
      (by simp) (by omega)
  · rintro env hstat hput ⟨rid, hsub, hrid⟩ hpoll
    simp [run_sql_via_jobs_api, hput, hsub, hstat, hpoll, hrid]

def runningStatus : RunStatus := ⟨some "RUNNING", none⟩

/-- A run that never reaches a terminal state. -/
def c5StatusAt : Nat → Except String RunStatus := fun _ => Except.ok runningStatus

def c5Env : JobsEnv :=
  ⟨Except.ok (), Except.ok (some 7), c5StatusAt, Except.ok runningStatus,
   Except.ok [], fun _ => Except.ok [], fun _ => Except.error "unread",
   fun _ => Except.error "unparsed"⟩

/-- Witness for C5 at the default interval and timeout (3 s, 300 s) against
a run that never terminates: the loop exits and the function returns the
timeout failure. -/
theorem c5_poll_loop_terminates_witness :
    (∃ r, pollLoop c5StatusAt 3 300 = some r ∧ validPollExit c5StatusAt 3 300 r) ∧
    run_sql_via_jobs_api c5Env 3 300 =
      JobsResult.failure (ErrInfo.msg "Timed out waiting for job completion") := by
  have h := c5_poll_loop_terminates c5StatusAt 3 300 (by decide)
  exact ⟨h.1, h.2 c5Env rfl rfl ⟨7, rfl, by decide⟩ (by decide)⟩

/-- Environment exhibiting the C4 divergence: every step up to and
including the poll loop succeeds (the run reaches `TERMINATED`/`SUCCESS`),
but the follow-up status fetch after the loop raises. -/
def c4Env : JobsEnv :=
  ⟨Except.ok (), Except.ok (some 42),
   fun _ => Except.ok ⟨some "TERMINATED", some "SUCCESS"⟩,
   Except.error "ConnectionError: connection reset by peer",
   Except.ok [], fun _ => Except.ok [], fun _ => Except.error "unread",
   fun _ => Except.error "unparsed"⟩

/-- Claim C4 (code bug): the claim — and the function docstring — say every
failing step yields a `(False, error-description)` return, but the status
re-fetch after the poll loop is the one REST call outside any
`try`/`except` (lines 172-174): when it raises, the exception escapes
`run_sql_via_jobs_api` instead of becoming a `(False, ...)` return. -/
theorem c4_final_status_fetch_exception_escapes :
    run_sql_via_jobs_api c4Env default_poll_interval default_timeout =
      JobsResult.exn "ConnectionError: connection reset by peer" := by decide

/-- Claim C7: with the optional package absent (`HAS_DBSQL = False`),
`test_sql_connection` returns the not-installed error pair for every input;
and with the connector module unavailable, real-mode `execute_sql` returns
the one-column error frame carrying the import-error text. -/
theorem c7_missing_module_error_values :
    (∀ (host path token : String) (tmo : Nat)
       (connect : String → String → String → Except String (List Cell)),
       test_sql_connection false host path token tmo connect =
         (false, ConnReply.msg "databricks-sql-connector not installed")) ∧
    (∀ (env : AppEnv) (sql : String),
       env.demo_mode = false → env.connector = none →
       (execute_sql env sql).1 = errorDf connectorMissingMsg ∧
       (execute_sql env sql).1.columns = ["error"]) := by
  constructor
  · intro host path token tmo connect
    rfl
  · intro env sql hd hc
    simp [execute_sql, hd, hc, errorDf]

/-- Witness for C7 at concrete inputs. -/
theorem c7_missing_module_error_values_witness :
    test_sql_connection false "adb.example.net" "/sql/1.0/x" "tok" 10
        (fun _ _ _ => Except.error "unreachable") =
      (false, ConnReply.msg "databricks-sql-connector not installed") ∧
    (execute_sql ⟨false, ⟨none, none⟩, none⟩ "SELECT 1").1 =
      errorDf connectorMissingMsg :=
  ⟨c7_missing_module_error_values.1 "adb.example.net" "/sql/1.0/x" "tok" 10
      (fun _ _ _ => Except.error "unreachable"),
   (c7_missing_module_error_values.2 ⟨false, ⟨none, none⟩, none⟩ "SELECT 1" rfl rfl).1⟩

/-- Witness for C9 at the text "abc": the vector has 32 components and its
first component `186 / 255` (the leading digest byte of `sha256("abc")`)
lies in `[0, 1]`. -/
theorem c9_embed_vector_shape_witness :
    (embedOne "abc").length = 32 ∧
    (0 : ℚ) ≤ 186 / 255 ∧ (186 : ℚ) / 255 ≤ 1 := by
  have hmem : ((186 : ℚ) / 255) ∈ embedOne "abc" := by
    rw [(c9_embed_vector_shape "abc").1, sha256_abc_test_vector]
    simp only [List.map_cons, List.mem_cons]
    left
    norm_num
  exact ⟨(c9_embed_vector_shape "abc").2.1,
         (c9_embed_vector_shape "abc").2.2 _ hmem⟩

/-- Claim C6: once the driver is present and the configuration guard
passes, `sync_schema_to_neo4j` emits, for every table entry, the same fixed
statement block — three node MERGEs, two relationship MATCH-MERGEs, and two
statements per column — concatenated over the schema in order; in
particular the trace holds exactly `5 * #tables + 2 * #columns` statements.
The trace is a function of the schema object alone: no database read,
diffing, skipping, or batching occurs. -/
theorem c6_sync_fixed_statements (uri user pwd : String)
    (schema_obj : List (String × List String))
    (huri : uri ≠ "") (huser : user ≠ "") :
    sync_schema_to_neo4j true uri user pwd schema_obj =
      Except.ok (schema_obj.flatMap claimedTableStmts) ∧
    (schema_obj.flatMap claimedTableStmts).length =
      5 * schema_obj.length + 2 * (schema_obj.map (fun e => e.2.length)).sum := by
  have h1 : (uri == "") = false := beq_eq_false_iff_ne.mpr huri
  have h2 : (user == "") = false := beq_eq_false_iff_ne.mpr huser
  constructor
  · simp only [sync_schema_to_neo4j, h1, h2, Bool.not_true, Bool.false_eq_true, if_false,
      Bool.or_self, Except.ok.injEq]
    exact syncFoldl_eq schema_obj []
  · induction schema_obj with
    | nil => simp
    | cons e es ih =>
      simp only [List.flatMap_cons, List.length_append, claimedTableStmts_length,
        List.length_cons, List.map_cons, List.sum_cons, ih]
      ring

/-- Witness for C6 on a concrete one-table schema with two columns: the
trace is the fixed nine-statement block. -/
theorem c6_sync_fixed_statements_witness :
    sync_schema_to_neo4j true "bolt://localhost:7687" "neo4j" "secret"
        [("demo.sales.orders", ["order_id", "customer_id"])] =
      Except.ok
        [Cypher.mergeCatalog "demo", Cypher.mergeSchema "sales", Cypher.mergeTable "orders",
         Cypher.relHasSchema "demo" "sales", Cypher.relHasTable "sales" "orders",
         Cypher.mergeColumn "order_id", Cypher.relHasColumn "orders" "order_id",
         Cypher.mergeColumn "customer_id", Cypher.relHasColumn "orders" "customer_id"] ∧
    ([("demo.sales.orders", ["order_id", "customer_id"])].flatMap claimedTableStmts).length =
      5 * 1 + 2 * 2 := by
  have h := c6_sync_fixed_statements "bolt://localhost:7687" "neo4j" "secret"
    [("demo.sales.orders", ["order_id", "customer_id"])] (by decide) (by decide)
  constructor
  · rw [h.1]
    rfl
  · rw [h.2]
    decide

def elevenRowDf : DataFrame := ⟨["n"], List.replicate 11 [Cell.q 1]⟩

/-- Claim C1: for every non-empty pinned list, the export action with the
exporter available builds a deck of one title slide followed by one table
side per pinned insight — each table truncated by `head(10)`, so to at most
10 rows — saves it as `dataweave_pinned.pptx`, and offers exactly that file
for download with no error. -/
theorem c1_export_pinned_builds_deck (demo : Bool) (pinned : List Pinned)
    (hne : pinned ≠ []) :
    (export_pinned_to_ppt true demo pinned).deck =
      some (Slide.titleSlide "DataWeave AI - Pinned Insights" ::
        pinned.map (fun p => Slide.tableSlide (getTitleD p) (p.df.head 10))) ∧
    (export_pinned_to_ppt true demo pinned).savedTo = some "dataweave_pinned.pptx" ∧
    (export_pinned_to_ppt true demo pinned).offered = some "dataweave_pinned.pptx" ∧
    (export_pinned_to_ppt true demo pinned).errMsg = none ∧
    ∀ p ∈ pinned, (p.df.head 10).rows.length ≤ 10 := by
  have hemp : pinned.isEmpty = false := by
    cases pinned with
    | nil => exact absurd rfl hne
    | cons p ps => rfl
  refine ⟨?_, ?_, ?_, ?_, ?_⟩
  · simp [export_pinned_to_ppt, hemp, BoardExporter.save_ppt, foldl_add_table_slides,
      BoardExporter.add_title_slide]
  · simp [export_pinned_to_ppt, hemp, BoardExporter.save_ppt]
  · simp [export_pinned_to_ppt, hemp, BoardExporter.save_ppt]
  · simp [export_pinned_to_ppt, hemp, BoardExporter.save_ppt]
  · intro p _
    simp only [DataFrame.head, List.length_take]
    exact Nat.min_le_left _ _

/-- Witness for C1 on two concrete pinned insights, one with eleven rows
(truncated to ten) and one untitled (falling back to "Insight"). -/
theorem c1_export_pinned_builds_deck_witness :
    (export_pinned_to_ppt true true
        [⟨some "Vendors", elevenRowDf⟩, ⟨none, fallbackBatchesDf⟩]).deck =
      some [Slide.titleSlide "DataWeave AI - Pinned Insights",
            Slide.tableSlide "Vendors" ⟨["n"], List.replicate 10 [Cell.q 1]⟩,
            Slide.tableSlide "Insight" fallbackBatchesDf] ∧
    (export_pinned_to_ppt true true
        [⟨some "Vendors", elevenRowDf⟩, ⟨none, fallbackBatchesDf⟩]).savedTo =
      some "dataweave_pinned.pptx" := by
  have h := c1_export_pinned_builds_deck true
    [⟨some "Vendors", elevenRowDf⟩, ⟨none, fallbackBatchesDf⟩] (by simp)
  refine ⟨?_, h.2.1⟩
  rw [h.1]
  decide

end DBQuery
